import Mathlib

/-!
Shallow embedding of the SMEPro Orchestrator LTI 1.3 authentication module
(`src/lti13.py`) and the launch-facing pieces of the HTTP layer
(`src/orchestrator.py`).

Modelling conventions:
- Python dicts used as keyed stores become association lists
  (`List (String × α)`) with insertion-order semantics matching CPython.
- `secrets.token_urlsafe(32)` is modelled as a fresh-token supply driven by
  a counter in the world state: the n-th token drawn is `mkTok n`, a string
  of length `n + 1` (so tokens are pairwise distinct and never empty).
- Machine time (`datetime.utcnow()`) is a `Nat` number of seconds carried in
  the world state; TTLs are second counts (JWKS cache: 3600).
- The network (`requests.get` of a JWKS URL) is an oracle
  `String → Except Unit Jwks` carried in the world state; `raise_for_status`
  failures are the `.error` case.
- JWTs are already-parsed records; the signature is modelled abstractly: a
  token carries the identity (`sigKey`) of the key material that actually
  signed it together with its declared header algorithm, and RS256
  verification under a JWK succeeds exactly when the identities agree and
  the header algorithm is the allowed one, mirroring PyJWT's
  `jwt.decode(..., algorithms=[\x22RS256\x22])` behaviour.
- Python exceptions become `Except` values; `LTIError`, `jwt`-library errors
  and `KeyError` are distinguished because `handle_launch` catches only the
  `jwt` ones.
-/

namespace LTI

/-- Fresh opaque token supply: the token drawn at counter value `n`.
Models `secrets.token_urlsafe(32)`; tokens are nonempty and pairwise
distinct. -/
def mkTok (n : Nat) : String := String.mk (List.replicate (n + 1) 'a')

/-- Association-list lookup, mirroring Python `dict.get` / `d[k]`. -/
def dictLookup {α : Type} : List (String × α) → String → Option α
  | [], _ => none
  | (k, v) :: rest, key => if k = key then some v else dictLookup rest key

/-- Association-list insert/overwrite, mirroring Python `d[k] = v`
(overwrite keeps the key position; a new key is appended). -/
def dictInsert {α : Type} : List (String × α) → String → α → List (String × α)
  | [], key, val => [(key, val)]
  | (k, v) :: rest, key, val =>
      if k = key then (key, val) :: rest else (k, v) :: dictInsert rest key val

/-- Association-list delete, mirroring Python `del d[k]` / Redis `DEL`. -/
def dictDelete {α : Type} : List (String × α) → String → List (String × α)
  | [], _ => []
  | (k, v) :: rest, key =>
      if k = key then dictDelete rest key else (k, v) :: dictDelete rest key

/-- Truthiness of an optional string, as in Python (`None` and `""` are
falsy). -/
def truthy : Option String → Bool
  | none => false
  | some s => !(s = "")

/-- A single JSON Web Key of a platform JWKS: its key id and an abstract
identity of the RSA key material. -/
structure Jwk where
  kid : Option String := none
  key : Nat := 0
deriving DecidableEq

/-- A JWKS document: `{"keys": [...]}`. -/
structure Jwks where
  keys : List Jwk := []
deriving DecidableEq

/-- A platform configuration as stored by `register_platform`
(`src/lti13.py:79`). All fields optional: registration performs no
validation, so any subset may be present. -/
structure PlatformConfig where
  issuer : Option String := none
  client_id : Option String := none
  auth_login_url : Option String := none
  auth_token_url : Option String := none
  auth_jwks_url : Option String := none
  deployment_ids : Option (List String) := none
deriving DecidableEq

/-- The `context` claim object of an id token. -/
structure CtxClaim where
  id : Option String := none
  label : Option String := none
  title : Option String := none
deriving DecidableEq

/-- The `tool_platform` claim object. -/
structure ToolPlatformClaim where
  product_family_code : Option String := none
deriving DecidableEq

/-- The NRPS (`namesroleservice`) claim object. -/
structure NrpsClaim where
  context_memberships_url : Option String := none
  service_versions : List String := []
deriving DecidableEq

/-- The AGS (`ags`) claim object. -/
structure AgsClaim where
  lineitems : Option String := none
  lineitem : Option String := none
  scope : List String := []
deriving DecidableEq

/-- An already-parsed LTI id token (JWT). `alg`/`kid` are the header
fields; `sigKey` abstractly identifies the key material that produced the
signature; the rest are payload claims (LTI claims under their short
names). -/
structure IdToken where
  alg : String := "RS256"
  kid : Option String := none
  sigKey : Nat := 0
  iss : Option String := none
  aud : Option String := none
  exp : Option Nat := none
  nonce : Option String := none
  version : Option String := none
  deployment_id : Option String := none
  roles : List String := []
  sub : Option String := none
  email : Option String := none
  name : Option String := none
  context : Option CtxClaim := none
  locale : Option String := none
  tool_platform : Option ToolPlatformClaim := none
  custom : List (String × String) := []
  namesroleservice : Option NrpsClaim := none
  ags : Option AgsClaim := none
deriving DecidableEq

/-- The `LTIContext` dataclass (`src/lti13.py:19`). -/
structure LTIContext where
  user_id : String
  user_email : String
  user_name : String
  user_role : String
  course_id : String
  course_name : String
  context_id : String
  context_label : String
  context_title : String
  launch_presentation_locale : String
  tool_consumer_info_product_family_code : String
  custom_params : List (String × String)
deriving DecidableEq

/-- `LTIContext.is_instructor` (`src/lti13.py:36`). -/
def LTIContext.is_instructor (c : LTIContext) : Bool :=
  c.user_role ∈ ["instructor", "admin", "urn:lti:role:ims/lis/Instructor"]

/-- Extracted NRPS service endpoint descriptor. -/
structure NrpsSvc where
  context_memberships_url : Option String
  service_versions : List String
deriving DecidableEq

/-- Extracted AGS service endpoint descriptor. -/
structure AgsSvc where
  lineitems : Option String
  lineitem : Option String
  scope : List String
deriving DecidableEq

/-- The services dict returned by `_extract_service_endpoints`. -/
structure Services where
  nrps : Option NrpsSvc := none
  ags : Option AgsSvc := none
deriving DecidableEq

/-- Errors raised by PyJWT's `jwt.decode` (subclasses of
`jwt.InvalidTokenError`): these are the only exceptions caught and wrapped
by `handle_launch`. -/
inductive JwtErr where
  | invalidAlgorithm
  | signatureFailed
  | expired
  | invalidAudience
  | invalidIssuer
deriving DecidableEq

/-- The `str()` of each PyJWT error (model-level messages). -/
def JwtErr.msg : JwtErr → String
  | .invalidAlgorithm => "The specified alg value is not allowed"
  | .signatureFailed => "Signature verification failed"
  | .expired => "Signature has expired"
  | .invalidAudience => "Invalid audience"
  | .invalidIssuer => "Invalid issuer"

/-- Exceptions escaping `_validate_jwt`: an `LTIError`, a PyJWT error, or a
Python `KeyError` from a missing platform-config field. -/
inductive VErr where
  | lti (m : String)
  | jwt (e : JwtErr)
  | keyError (k : String)
deriving DecidableEq

/-- Exceptions escaping `handle_launch` into `lti_launch`: an `LTIError`, a
`requests` HTTP error from the JWKS fetch, or a `KeyError`. -/
inductive PyExc where
  | ltiError (m : String)
  | httpError
  | keyError (k : String)
deriving DecidableEq

/-- The `str()` of an exception, as interpolated into the launch-failure
response body. -/
def PyExc.msg : PyExc → String
  | .ltiError m => m
  | .httpError => "HTTP error fetching JWKS"
  | .keyError k => "KeyError: " ++ k

/-- The instructor role URIs of `_determine_user_role`
(`src/lti13.py:302`). -/
def instructor_roles : List String :=
  ["http://purl.imsglobal.org/vocab/lis/v2/institution/person#Instructor",
   "http://purl.imsglobal.org/vocab/lis/v2/membership#Instructor",
   "urn:lti:role:ims/lis/Instructor",
   "Instructor"]

/-- The administrator role URIs of `_determine_user_role`
(`src/lti13.py:309`). -/
def admin_roles : List String :=
  ["http://purl.imsglobal.org/vocab/lis/v2/institution/person#Administrator",
   "http://purl.imsglobal.org/vocab/lis/v2/membership#Administrator",
   "urn:lti:role:ims/lis/Administrator",
   "Administrator"]

/-- `_determine_user_role` (`src/lti13.py:299`): scan the role list in
order; at the first element that is a recognized admin URI return
`admin`, at the first that is a recognized instructor URI return
`instructor`; default `student`. -/
def _determine_user_role : List String → String
  | [] => "student"
  | r :: rs =>
      if r ∈ admin_roles then "admin"
      else if r ∈ instructor_roles then "instructor"
      else _determine_user_role rs

/-- `register_platform` (`src/lti13.py:79`): store/overwrite the config
under the platform id. The source performs no validation of the config and
no network or cryptographic work. -/
def register_platform (configs : List (String × PlatformConfig))
    (platform_id : String) (config : PlatformConfig) :
    List (String × PlatformConfig) :=
  dictInsert configs platform_id config

/-- `_get_platform_by_issuer` (`src/lti13.py:324`): first registered config
whose `issuer` field equals the given issuer, paired with its platform
id. -/
def _get_platform_by_issuer :
    List (String × PlatformConfig) → String → Option (String × PlatformConfig)
  | [], _ => none
  | (pid, c) :: rest, iss =>
      if c.issuer = some iss then some (pid, c)
      else _get_platform_by_issuer rest iss

/-- The key-id lookup loop of `_validate_jwt` (`src/lti13.py:210`): first
JWK whose `kid` equals the token header's `kid`. -/
def findJwk (jwks : Jwks) (kid : Option String) : Option Jwk :=
  jwks.keys.find? (fun j => j.kid == kid)

/-- Whether the token is expired at `now` (PyJWT checks `exp` only when
present). -/
def isExpired (token : IdToken) (now : Nat) : Bool :=
  match token.exp with
  | some e => e < now
  | none => false

/-- `_validate_jwt` (`src/lti13.py:202`): resolve the signing key by `kid`,
run `jwt.decode` under `algorithms=[RS256]` with the platform's
`client_id` audience and `issuer`, then check the LTI version and
deployment-id claims. `platform[...]` subscripts raise `KeyError` when the
registered config lacks the field. -/
def _validate_jwt (token : IdToken) (jwks : Jwks) (platform : PlatformConfig)
    (now : Nat) : Except VErr IdToken :=
  match findJwk jwks token.kid with
  | none => .error (.lti "Unable to find matching JWK")
  | some jwk =>
      match platform.client_id with
      | none => .error (.keyError "client_id")
      | some cid =>
          match platform.issuer with
          | none => .error (.keyError "issuer")
          | some piss =>
              if token.alg ≠ "RS256" then .error (.jwt .invalidAlgorithm)
              else if token.sigKey ≠ jwk.key then .error (.jwt .signatureFailed)
              else if isExpired token now then .error (.jwt .expired)
              else if token.aud ≠ some cid then .error (.jwt .invalidAudience)
              else if token.iss ≠ some piss then .error (.jwt .invalidIssuer)
              else if token.version ≠ some "1.3.0" then
                .error (.lti "Invalid LTI version")
              else if token.deployment_id.getD "" = "" then
                .error (.lti "Missing deployment_id")
              else if ¬ (platform.deployment_ids.getD []).contains
                  (token.deployment_id.getD "") then
                .error (.lti "Invalid deployment_id")
              else .ok token

/-- `_extract_lti_context` (`src/lti13.py:242`). -/
def _extract_lti_context (decoded : IdToken) : LTIContext :=
  let ctx := decoded.context.getD {}
  { user_id := decoded.sub.getD ""
    user_email := decoded.email.getD ""
    user_name := decoded.name.getD ""
    user_role := _determine_user_role decoded.roles
    course_id := ctx.id.getD ""
    course_name := ctx.title.getD ""
    context_id := ctx.id.getD ""
    context_label := ctx.label.getD ""
    context_title := ctx.title.getD ""
    launch_presentation_locale := decoded.locale.getD "en-US"
    tool_consumer_info_product_family_code :=
      (decoded.tool_platform.getD {}).product_family_code.getD ""
    custom_params := decoded.custom }

/-- `_extract_service_endpoints` (`src/lti13.py:274`): a descriptor is
present exactly when the corresponding claim namespace is present. -/
def _extract_service_endpoints (decoded : IdToken) : Services :=
  { nrps := decoded.namesroleservice.map
      (fun n => ⟨n.context_memberships_url, n.service_versions⟩)
    ags := decoded.ags.map (fun a => ⟨a.lineitems, a.lineitem, a.scope⟩) }

/-- A stored login-state entry (`_store_state` payload,
`src/lti13.py:120`). -/
structure StateEntry where
  platform_id : String
  nonce : String
  target_link_uri : Option String
  timestamp : Nat
deriving DecidableEq

/-- A JWKS cache entry (`src/lti13.py:343`). -/
structure CacheEntry where
  jwks : Jwks
  expires : Nat
deriving DecidableEq

/-- Modelled from the spec: the Redis-backed ephemeral state store is
missing from the source (`_store_state`/`_get_state`/`_delete_state` are
TODO stubs, `src/lti13.py:350`). Per spec section 4.2, `takeOnce(state)`
atomically reads and deletes the entry in one logical operation, returning
nothing if the entry is absent or older than the state TTL (10 minutes =
600 seconds). -/
def takeOnce (store : List (String × StateEntry)) (s : String) (now : Nat) :
    Option StateEntry × List (String × StateEntry) :=
  match dictLookup store s with
  | none => (none, store)
  | some e =>
      if now ≤ e.timestamp + 600 then (some e, dictDelete store s)
      else (none, dictDelete store s)

/-- The whole mutable world threaded through the handlers: the platform
registry, the (spec-modelled) state store, the JWKS cache with its fetch
counter and network oracle, the clock, the fresh-token counter, and the
session tokens issued so far. -/
structure World where
  configs : List (String × PlatformConfig) := []
  stateStore : List (String × StateEntry) := []
  jwksCache : List (String × CacheEntry) := []
  net : String → Except Unit Jwks := fun _ => .error ()
  now : Nat := 0
  ctr : Nat := 0
  fetchCount : Nat := 0
  issuedSessions : List String := []

/-- The fetch-and-store branch of `_get_jwks` (`src/lti13.py:339`):
`requests.get`, `raise_for_status`, parse, cache with a one-hour expiry.
The third component counts network fetches performed. -/
def fetchAndStore (cache : List (String × CacheEntry))
    (net : String → Except Unit Jwks) (now : Nat) (url : String) :
    Except PyExc Jwks × List (String × CacheEntry) × Nat :=
  match net url with
  | .error _ => (.error .httpError, cache, 1)
  | .ok jwks => (.ok jwks, dictInsert cache url ⟨jwks, now + 3600⟩, 1)

/-- `_get_jwks` (`src/lti13.py:331`): return the cached key set when an
entry for the URL exists with `expires > now`; otherwise fetch and cache.
Returns (result, new cache, number of fetches performed). -/
def _get_jwks (cache : List (String × CacheEntry))
    (net : String → Except Unit Jwks) (now : Nat) (url : String) :
    Except PyExc Jwks × List (String × CacheEntry) × Nat :=
  match dictLookup cache url with
  | some entry =>
      if now < entry.expires then (.ok entry.jwks, cache, 0)
      else fetchAndStore cache net now url
  | none => fetchAndStore cache net now url

/-- Flask app config constants used by `handle_login`
(`src/lti13.py:72`). -/
structure Env where
  tool_url : String := "https://api.smepro.lamar.edu"
  launch_url : String := "/lti/launch"

/-- The body of an OIDC login-initiation request (`request_data` of
`handle_login`). `none` models an absent key. -/
structure LoginRequest where
  iss : Option String := none
  login_hint : Option String := none
  target_link_uri : Option String := none
  lti_message_hint : Option String := none
deriving DecidableEq

/-- The successful output of `handle_login`: the built redirect URL, the
generated state, and the authentication-request parameters in dict
insertion order. -/
structure LoginOk where
  redirect_url : String
  state : String
  params : List (String × String)
deriving DecidableEq

/-- The outcome of `handle_login`: HTTP 200 with redirect data, HTTP 400
with an error body, or an uncaught Python exception. -/
inductive LoginResult where
  | ok (r : LoginOk)
  | badRequest (error : String)
  | exc (e : PyExc)
deriving DecidableEq

/-- `handle_login` (`src/lti13.py:96`): require truthy `iss` and
`login_hint`, look up the platform by issuer, generate state and nonce,
store the state entry (spec-modelled store write), and build the
authentication request. `platform[...]` subscripts raise `KeyError` when
the config lacks the field. -/
def handle_login (env : Env) (w : World) (r : LoginRequest) :
    LoginResult × World :=
  if ¬ (truthy r.iss ∧ truthy r.login_hint) then
    (.badRequest "Missing required parameters", w)
  else
    match _get_platform_by_issuer w.configs (r.iss.getD "") with
    | none => (.badRequest "Unknown platform issuer", w)
    | some (pid, platform) =>
        let state := mkTok w.ctr
        let nonce := mkTok (w.ctr + 1)
        let w1 : World := { w with
          ctr := w.ctr + 2,
          stateStore := dictInsert w.stateStore state
            ⟨pid, nonce, r.target_link_uri, w.now⟩ }
        match platform.client_id with
        | none => (.exc (.keyError "client_id"), w1)
        | some cid =>
            let base : List (String × String) :=
              [("scope", "openid"),
               ("response_type", "id_token"),
               ("client_id", cid),
               ("redirect_uri", env.tool_url ++ env.launch_url),
               ("login_hint", r.login_hint.getD ""),
               ("state", state),
               ("response_mode", "form_post"),
               ("nonce", nonce),
               ("prompt", "none")]
            let ps := match r.lti_message_hint with
              | some h => base ++ [("lti_message_hint", h)]
              | none => base
            match platform.auth_login_url with
            | none => (.exc (.keyError "auth_login_url"), w1)
            | some auth_url =>
                let redirect := auth_url ++ "?" ++
                  String.intercalate "&" (ps.map (fun p => p.1 ++ "=" ++ p.2))
                (.ok ⟨redirect, state, ps⟩, w1)

/-- The body of a launch request: a (pre-parsed) id token and the state
parameter. `none` models an absent `id_token`; an absent or empty `state`
is falsy. -/
structure LaunchRequest where
  id_token : Option IdToken := none
  state : Option String := none
deriving DecidableEq

/-- The tail of `handle_launch` after the state entry has been consumed
(`src/lti13.py:173`): platform lookup, JWKS fetch, JWT validation, nonce
check, context and service extraction, state cleanup. -/
def launchRest (w : World) (s : String) (stored : StateEntry)
    (token : IdToken) : Except PyExc (LTIContext × Services) × World :=
  match dictLookup w.configs stored.platform_id with
  | none => (.error (.ltiError "Unknown platform"), w)
  | some platform =>
      match platform.auth_jwks_url with
      | none => (.error (.keyError "auth_jwks_url"), w)
      | some url =>
          match _get_jwks w.jwksCache w.net w.now url with
          | (.error e, cache1, n) =>
              (.error e, { w with jwksCache := cache1,
                                  fetchCount := w.fetchCount + n })
          | (.ok jwks, cache1, n) =>
              let w2 : World := { w with jwksCache := cache1,
                                         fetchCount := w.fetchCount + n }
              match _validate_jwt token jwks platform w2.now with
              | .error (.jwt e) =>
                  (.error (.ltiError ("Invalid JWT: " ++ e.msg)), w2)
              | .error (.lti m) => (.error (.ltiError m), w2)
              | .error (.keyError k) => (.error (.keyError k), w2)
              | .ok decoded =>
                  if decoded.nonce ≠ some stored.nonce then
                    (.error (.ltiError "Invalid nonce"), w2)
                  else
                    let ctx := _extract_lti_context decoded
                    let svcs := _extract_service_endpoints decoded
                    let w3 : World :=
                      { w2 with stateStore := dictDelete w2.stateStore s }
                    (.ok (ctx, svcs), w3)

/-- `handle_launch` (`src/lti13.py:153`): require `id_token` and `state`,
consume the state entry (spec-modelled `takeOnce`), then validate and
extract. -/
def handle_launch (w : World) (r : LaunchRequest) :
    Except PyExc (LTIContext × Services) × World :=
  match r.id_token with
  | none => (.error (.ltiError "Missing id_token"), w)
  | some token =>
      if ¬ truthy r.state then (.error (.ltiError "Missing state"), w)
      else
        let s := r.state.getD ""
        match takeOnce w.stateStore s w.now with
        | (none, st1) =>
            (.error (.ltiError "Invalid or expired state"),
             { w with stateStore := st1 })
        | (some stored, st1) =>
            launchRest { w with stateStore := st1 } s stored token

/-- The compact launch-context summary returned by the `/lti/launch`
route (`src/orchestrator.py:201`). -/
structure ContextSummary where
  user_id : String
  user_name : String
  user_role : String
  course_id : String
  course_name : String
deriving DecidableEq

/-- The HTTP response of the `/lti/launch` route: 200 with a session token
and summary, or 400 with `{error: ..., message: ...}`. -/
inductive LaunchResponse where
  | ok (session_token : String) (context : ContextSummary)
  | failed (error : String) (message : String)
deriving DecidableEq

/-- `_create_session` (`src/orchestrator.py:221`): mint a fresh opaque
session token (modelled from the counter supply) and record it; the Redis
session body is not needed by any claim and is not modelled beyond the
issued-token list. -/
def _create_session (w : World) : String × World :=
  let token := mkTok w.ctr
  (token, { w with ctr := w.ctr + 1,
                   issuedSessions := w.issuedSessions ++ [token] })

/-- `lti_launch` (`src/orchestrator.py:189`): run `handle_launch`; on any
exception return 400 with the coarse error field and the exception's
message; on success create a session and return 200. -/
def lti_launch (w : World) (r : LaunchRequest) : LaunchResponse × World :=
  match handle_launch w r with
  | (.error e, w1) => (.failed "Launch failed" e.msg, w1)
  | (.ok (ctx, _svcs), w1) =>
      let (tok, w2) := _create_session w1
      (.ok tok ⟨ctx.user_id, ctx.user_name, ctx.user_role,
                ctx.course_id, ctx.course_name⟩, w2)

/-- The Flask `request` object as seen by the decorators: its headers and
its `lti_context` attribute, which `getattr(request, ..., None)` reads.
No code path in the repository ever assigns `request.lti_context`. -/
structure RequestObj where
  headers : List (String × String)
  lti_context : Option LTIContext := none

/-- The Flask `g` object populated by `before_request`. -/
structure GObj where
  lti_context : Option LTIContext

/-- `before_request` (`src/orchestrator.py:80`): validate an `X-LTI-Token`
header if present and store the result on `g.lti_context` (the
try/except collapses to an `Option`-valued validator); the `request`
object itself is not modified. -/
def before_request (validate : String → Option LTIContext)
    (req : RequestObj) : GObj :=
  match dictLookup req.headers "X-LTI-Token" with
  | some tok => { lti_context := validate tok }
  | none => { lti_context := none }

/-- An endpoint response at the granularity the guard claims need. -/
inductive EndpointResponse where
  | ok
  | unauthorized (m : String)
  | forbidden (m : String)
deriving DecidableEq

/-- `require_lti_auth` (`src/lti13.py:392`): read
`getattr(request, lti_context, None)`; 401 when falsy, else call the
wrapped view. -/
def require_lti_auth (f : RequestObj → GObj → EndpointResponse)
    (req : RequestObj) (g : GObj) : EndpointResponse :=
  match req.lti_context with
  | none => .unauthorized "LTI authentication required"
  | some _ => f req g

/-- `require_instructor` (`src/lti13.py:406`): like `require_lti_auth`,
plus a 403 when the context is not an instructor. -/
def require_instructor (f : RequestObj → GObj → EndpointResponse)
    (req : RequestObj) (g : GObj) : EndpointResponse :=
  match req.lti_context with
  | none => .unauthorized "LTI authentication required"
  | some c => if c.is_instructor then f req g
              else .forbidden "Instructor role required"

/-- How Flask serves one request to a guarded endpoint
(`src/orchestrator.py:247`): build the request object (whose
`lti_context` attribute nothing assigns), run `before_request` to obtain
`g`, then run the decorated view. -/
def runRequest (validate : String → Option LTIContext)
    (endpoint : RequestObj → GObj → EndpointResponse)
    (headers : List (String × String)) : EndpointResponse :=
  let req : RequestObj := { headers := headers }
  let g := before_request validate req
  endpoint req g

/-- The platform registration of the spec's end-to-end scenario:
`https://lms.example.edu` with `client_id=tool-123` and
`deployment_ids=["dep-1"]`. -/
def scenarioPlatform : PlatformConfig :=
  { issuer := some "https://lms.example.edu"
    client_id := some "tool-123"
    auth_login_url := some "https://lms.example.edu/auth"
    auth_token_url := some "https://lms.example.edu/token"
    auth_jwks_url := some "https://lms.example.edu/jwks"
    deployment_ids := some ["dep-1"] }

/-! ### Helper lemmas -/

theorem mkTok_length (n : Nat) : (mkTok n).length = n + 1 := by
  simp [mkTok, String.length]

theorem mkTok_inj {a b : Nat} (h : mkTok a = mkTok b) : a = b := by
  have h2 := congrArg String.length h
  simpa [mkTok_length] using h2

theorem mkTok_ne_empty (n : Nat) : mkTok n ≠ "" := by
  intro h
  have h2 := congrArg String.length h
  simp [mkTok_length] at h2

theorem dictLookup_dictInsert_self {α : Type} (d : List (String × α))
    (k : String) (v : α) : dictLookup (dictInsert d k v) k = some v := by
  induction d with
  | nil => simp [dictInsert, dictLookup]
  | cons p rest ih =>
      obtain ⟨a, b⟩ := p
      by_cases h : a = k
      · simp [dictInsert, h, dictLookup]
      · simp [dictInsert, h, dictLookup, ih]

theorem dictLookup_dictDelete_self {α : Type} (d : List (String × α))
    (k : String) : dictLookup (dictDelete d k) k = none := by
  induction d with
  | nil => simp [dictDelete, dictLookup]
  | cons p rest ih =>
      obtain ⟨a, b⟩ := p
      by_cases h : a = k
      · simp [dictDelete, h, ih]
      · simp [dictDelete, h, dictLookup, ih]

theorem dictLookup_dictDelete_of_none {α : Type} (d : List (String × α))
    (k key : String) (h : dictLookup d key = none) :
    dictLookup (dictDelete d k) key = none := by
  induction d with
  | nil => simpa [dictDelete] using h
  | cons p rest ih =>
      obtain ⟨a, b⟩ := p
      simp only [dictLookup] at h
      by_cases hk : a = key
      · simp [hk] at h
      · by_cases hd : a = k
        · simp only [dictDelete, if_pos hd]
          exact ih (by simpa [hk] using h)
        · simp only [dictDelete, if_neg hd, dictLookup, if_neg hk]
          exact ih (by simpa [hk] using h)

/-- `_validate_jwt` only ever returns the token it was given. -/
theorem validate_jwt_ok_eq {token d : IdToken} {jwks : Jwks}
    {platform : PlatformConfig} {now : Nat}
    (h : _validate_jwt token jwks platform now = .ok d) : d = token := by
  unfold _validate_jwt at h
  repeat' split at h
  all_goals simp_all

/-! ### Claim theorems -/

/-- C2 (counterexample): the list `["Instructor", "Administrator"]`
contains a recognized administrator URI, yet `_determine_user_role`
returns `"instructor"`, not `"admin"` — ordering matters, refuting the
claim that any administrator URI wins regardless of the ordering of the
list. -/
theorem role_admin_not_order_independent :
    "Administrator" ∈ admin_roles ∧
    _determine_user_role ["Instructor", "Administrator"] = "instructor" ∧
    _determine_user_role ["Instructor", "Administrator"] ≠ "admin" := by
  refine ⟨by decide, by decide, by decide⟩

/-- C2 (amended): `_determine_user_role` returns the role of the first
entry in list order that is a recognized role URI — `admin` if that entry
is an administrator URI, `instructor` if it is an instructor URI — and
`student` when no entry is recognized (including the empty list). -/
theorem determine_user_role_first_recognized (roles : List String) :
    _determine_user_role roles =
      match roles.find?
          (fun r => admin_roles.contains r || instructor_roles.contains r) with
      | none => "student"
      | some r => if r ∈ admin_roles then "admin" else "instructor" := by
  induction roles with
  | nil => rfl
  | cons r rs ih =>
      by_cases ha : r ∈ admin_roles
      · rw [List.find?_cons_of_pos _ (by simp [ha])]
        simp [_determine_user_role, ha]
      · by_cases hi : r ∈ instructor_roles
        · rw [List.find?_cons_of_pos _ (by simp [hi])]
          simp [_determine_user_role, ha, hi]
        · rw [List.find?_cons_of_neg _ (by simp [ha, hi])]
          simpa [_determine_user_role, ha, hi] using ih

/-- C9 (counterexample): registering a configuration with every required
field missing (no issuer, no client_id, no JWKS URL, no login URL)
succeeds and stores the configuration — `register_platform` never fails
with a `ConfigError`, refuting the claim that it validates required
fields. -/
theorem register_platform_accepts_missing_fields :
    register_platform [] "p1" {} = [("p1", ({} : PlatformConfig))] ∧
    dictLookup (register_platform [] "p1" {}) "p1" =
      some ({} : PlatformConfig) := by
  refine ⟨by decide, by decide⟩

/-- C9 (amended): `register_platform` unconditionally stores the given
configuration under the platform id, overwriting any previous entry; it
performs no validation of required fields (it cannot fail), and no network
or cryptographic work (it is a pure store update). -/
theorem register_platform_stores_unconditionally
    (configs : List (String × PlatformConfig)) (platform_id : String)
    (config : PlatformConfig) :
    dictLookup (register_platform configs platform_id config) platform_id =
      some config :=
  dictLookup_dictInsert_self configs platform_id config

/-- C10: every request served to an endpoint guarded by `require_lti_auth`
or `require_instructor` receives the 401 response, for every validator
outcome, every wrapped view, and all header contents: the decorators read
`request.lti_context`, which no code path assigns — `before_request`
stores the validated context on `g.lti_context` instead. -/
theorem guarded_endpoints_always_unauthorized
    (validate : String → Option LTIContext)
    (f : RequestObj → GObj → EndpointResponse)
    (headers : List (String × String)) :
    runRequest validate (require_lti_auth f) headers =
      .unauthorized "LTI authentication required" ∧
    runRequest validate (require_instructor f) headers =
      .unauthorized "LTI authentication required" :=
  ⟨rfl, rfl⟩

/-- C8 (counterexample): two failing launch requests — one missing the
id token, one missing the state — both return the coarse
`Launch failed` error field, but their response bodies differ: the
`message` field carries the specific internal failure message, refuting
the claim that the body does not reveal which check failed. -/
theorem launch_failure_bodies_differ :
    (lti_launch {} { id_token := none, state := none }).1 =
      .failed "Launch failed" "Missing id_token" ∧
    (lti_launch {} { id_token := some {}, state := none }).1 =
      .failed "Launch failed" "Missing state" ∧
    (lti_launch {} { id_token := none, state := none }).1 ≠
      (lti_launch {} { id_token := some {}, state := none }).1 := by
  refine ⟨rfl, rfl, by decide⟩

/-- C8 (amended): every failing launch returns HTTP 400 with the same
coarse `error` field `Launch failed`, but the body's `message` field
contains the specific exception message of the check that failed, so
distinct internal failures can produce distinguishable bodies. -/
theorem launch_failure_coarse_error_with_message (w : World)
    (r : LaunchRequest) (e : PyExc) (w1 : World)
    (h : handle_launch w r = (.error e, w1)) :
    lti_launch w r = (.failed "Launch failed" e.msg, w1) := by
  unfold lti_launch
  rw [h]

/-- C8 witness: the amended theorem applied to a concrete failing
request. -/
theorem launch_failure_coarse_witness :
    lti_launch {} { id_token := none, state := none } =
      (.failed "Launch failed" "Missing id_token", ({} : World)) :=
  launch_failure_coarse_error_with_message {}
    { id_token := none, state := none } (.ltiError "Missing id_token") {} rfl

/-- C5: `_validate_jwt` accepts only tokens verifiable under RS256 with
the key resolved from the platform JWKS by key id: a token whose header
declares any algorithm other than RS256 (e.g. HS256 or none) is never
accepted, regardless of its claims; and a token whose key id matches no
key in the JWKS fails with the unknown-key error. -/
theorem validate_jwt_algorithm_restriction (token : IdToken) (jwks : Jwks)
    (platform : PlatformConfig) (now : Nat) :
    (token.alg ≠ "RS256" → ∀ d, _validate_jwt token jwks platform now ≠ .ok d) ∧
    (findJwk jwks token.kid = none →
      _validate_jwt token jwks platform now =
        .error (.lti "Unable to find matching JWK")) := by
  constructor
  · intro halg d
    unfold _validate_jwt
    cases hf : findJwk jwks token.kid with
    | none => simp
    | some jwk =>
        cases platform.client_id with
        | none => simp
        | some cid =>
            cases platform.issuer with
            | none => simp
            | some piss => simp [halg]
  · intro hf
    unfold _validate_jwt
    rw [hf]

/-- C5 witness: a token with header algorithm HS256 and an unmatched key
id is rejected, with the unknown-key error. -/
theorem validate_jwt_algorithm_restriction_witness :
    (∀ d, _validate_jwt { alg := "HS256", kid := some "nope" } {} {} 0 ≠
      .ok d) ∧
    _validate_jwt { alg := "HS256", kid := some "nope" } {} {} 0 =
      .error (.lti "Unable to find matching JWK") :=
  ⟨(validate_jwt_algorithm_restriction
      { alg := "HS256", kid := some "nope" } {} {} 0).1 (by decide),
   (validate_jwt_algorithm_restriction
      { alg := "HS256", kid := some "nope" } {} {} 0).2 (by decide)⟩

/-- C6: the `_get_jwks` cache algorithm. (i) A cached unexpired entry is
returned with no network fetch. (ii) With no usable entry, exactly one
fetch is performed: on success the result is stored with a one-hour
(3600 s) expiry and returned; on failure the call is a hard error.
(iii) After one fetch on a cache miss, a second request within the TTL
window performs no further fetch and returns the fetched key set. -/
theorem get_jwks_cache_algorithm (cache : List (String × CacheEntry))
    (net : String → Except Unit Jwks) (now : Nat) (url : String) :
    (∀ entry, dictLookup cache url = some entry → now < entry.expires →
      _get_jwks cache net now url = (.ok entry.jwks, cache, 0)) ∧
    ((dictLookup cache url = none ∨
        ∃ entry, dictLookup cache url = some entry ∧ ¬ now < entry.expires) →
      ((_get_jwks cache net now url).2.2 = 1 ∧
       (∀ jwks, net url = .ok jwks →
         _get_jwks cache net now url =
           (.ok jwks, dictInsert cache url ⟨jwks, now + 3600⟩, 1)) ∧
       (∀ e, net url = .error e →
         _get_jwks cache net now url = (.error .httpError, cache, 1)))) ∧
    (∀ jwks later, net url = .ok jwks → dictLookup cache url = none →
      later < now + 3600 →
      (_get_jwks cache net now url).2.2 = 1 ∧
      _get_jwks (_get_jwks cache net now url).2.1 net later url =
        (.ok jwks, (_get_jwks cache net now url).2.1, 0)) := by
  refine ⟨?_, ?_, ?_⟩
  · intro entry he hfresh
    unfold _get_jwks
    rw [he]
    simp [hfresh]
  · intro hmiss
    have hbranch : _get_jwks cache net now url = fetchAndStore cache net now url := by
      unfold _get_jwks
      rcases hmiss with h | ⟨entry, he, hexp⟩
      · rw [h]
      · rw [he]
        simp [hexp]
    refine ⟨?_, ?_, ?_⟩
    · rw [hbranch]
      unfold fetchAndStore
      cases net url <;> rfl
    · intro jwks hok
      rw [hbranch]
      unfold fetchAndStore
      rw [hok]
    · intro e herr
      rw [hbranch]
      unfold fetchAndStore
      rw [herr]
  · intro jwks later hok hmiss hlater
    have h1 : _get_jwks cache net now url =
        (.ok jwks, dictInsert cache url ⟨jwks, now + 3600⟩, 1) := by
      unfold _get_jwks
      rw [hmiss]
      unfold fetchAndStore
      rw [hok]
    refine ⟨by rw [h1], ?_⟩
    rw [h1]
    unfold _get_jwks
    rw [dictLookup_dictInsert_self]
    simp [hlater]

/-- C6 witness: the cache algorithm at a concrete URL with an empty cache
and a network oracle returning one key: the first call fetches once and
stores the key set with expiry 3600, a second call at time 5 performs no
fetch. -/
theorem get_jwks_cache_algorithm_witness :
    ((_get_jwks [] (fun _ => .ok ⟨[⟨some "k1", 1⟩]⟩) 0 "u").2.2 = 1 ∧
     (∀ jwks, (fun (_ : String) => Except.ok (ε := Unit) (⟨[⟨some "k1", 1⟩]⟩ : Jwks)) "u" = .ok jwks →
       _get_jwks [] (fun _ => .ok ⟨[⟨some "k1", 1⟩]⟩) 0 "u" =
         (.ok jwks, dictInsert [] "u" ⟨jwks, 0 + 3600⟩, 1)) ∧
     (∀ e, (fun (_ : String) => Except.ok (ε := Unit) (⟨[⟨some "k1", 1⟩]⟩ : Jwks)) "u" = .error e →
       _get_jwks [] (fun _ => .ok ⟨[⟨some "k1", 1⟩]⟩) 0 "u" =
         (.error .httpError, [], 1))) ∧
    ((_get_jwks [] (fun _ => .ok ⟨[⟨some "k1", 1⟩]⟩) 0 "u").2.2 = 1 ∧
     _get_jwks (_get_jwks [] (fun _ => .ok ⟨[⟨some "k1", 1⟩]⟩) 0 "u").2.1
         (fun _ => .ok ⟨[⟨some "k1", 1⟩]⟩) 5 "u" =
       (.ok ⟨[⟨some "k1", 1⟩]⟩,
        (_get_jwks [] (fun _ => .ok ⟨[⟨some "k1", 1⟩]⟩) 0 "u").2.1, 0)) :=
  ⟨(get_jwks_cache_algorithm [] (fun _ => .ok ⟨[⟨some "k1", 1⟩]⟩) 0 "u").2.1
     (Or.inl rfl),
   (get_jwks_cache_algorithm [] (fun _ => .ok ⟨[⟨some "k1", 1⟩]⟩) 0 "u").2.2
     ⟨[⟨some "k1", 1⟩]⟩ 5 rfl rfl (by decide)⟩

/-- `launchRest` never (re)creates a state entry: a key absent from the
store stays absent in the resulting world. -/
theorem launchRest_preserves_state_absence (w : World) (s : String)
    (stored : StateEntry) (token : IdToken) (key : String)
    (h : dictLookup w.stateStore key = none) :
    dictLookup (launchRest w s stored token).2.stateStore key = none := by
  unfold launchRest
  dsimp only
  repeat' (split <;> (try dsimp only))
  all_goals first
    | simpa using h
    | exact dictLookup_dictDelete_of_none _ _ _ h

/-- When `takeOnce` returns an entry, the store it returns no longer
contains the key. -/
theorem takeOnce_consumed {st : List (String × StateEntry)} {s : String}
    {now : Nat} {e : StateEntry} {st1 : List (String × StateEntry)}
    (h : takeOnce st s now = (some e, st1)) : dictLookup st1 s = none := by
  unfold takeOnce at h
  cases hl : dictLookup st s with
  | none => rw [hl] at h; simp at h
  | some e2 =>
      rw [hl] at h
      dsimp only at h
      by_cases hf : now ≤ e2.timestamp + 600
      · rw [if_pos hf] at h
        cases h
        exact dictLookup_dictDelete_self st s
      · rw [if_neg hf] at h
        simp at h

/-- `handle_launch` on a present token and nonempty state reduces to the
state-consumption step followed by `launchRest`. -/
theorem handle_launch_eq (w : World) (token : IdToken) (s : String)
    (hs : s ≠ "") :
    handle_launch w { id_token := some token, state := some s } =
      match takeOnce w.stateStore s w.now with
      | (none, st1) =>
          (.error (.ltiError "Invalid or expired state"),
           { w with stateStore := st1 })
      | (some stored, st1) =>
          launchRest { w with stateStore := st1 } s stored token := by
  have hts : truthy (some s) = true := by simp [truthy, hs]
  unfold handle_launch
  simp [hts]

/-- The only error `_get_jwks` can produce is the HTTP fetch error. -/
theorem get_jwks_error_is_http {cache : List (String × CacheEntry)}
    {net : String → Except Unit Jwks} {now : Nat} {url : String}
    {e : PyExc} {c : List (String × CacheEntry)} {n : Nat}
    (h : _get_jwks cache net now url = (.error e, c, n)) : e = .httpError := by
  unfold _get_jwks fetchAndStore at h
  repeat' split at h
  all_goals simp_all

/-- The only `LTIError` messages `_validate_jwt` can raise. -/
theorem validate_jwt_lti_error_msgs {token : IdToken} {jwks : Jwks}
    {platform : PlatformConfig} {now : Nat} {m : String}
    (h : _validate_jwt token jwks platform now = .error (.lti m)) :
    m = "Unable to find matching JWK" ∨ m = "Invalid LTI version" ∨
    m = "Missing deployment_id" ∨ m = "Invalid deployment_id" := by
  unfold _validate_jwt at h
  repeat' split at h
  all_goals simp_all

/-- C3: login-state single use and expiry, over the spec-modelled state
store (the Redis-backed store is absent from the source; `takeOnce` models
spec section 4.2). (i) The consuming read-and-delete is one atomic
operation: whenever `takeOnce` returns an entry, the store it
simultaneously returns no longer holds the key. (ii) Once a launch
attempt has consumed a state token, any later launch presenting the same
state token fails with the invalid-state error — whatever became of the
first attempt and whatever time has passed. (iii) An entry older than the
600-second state TTL is unusable even while still present in the store:
the launch fails with the invalid-state error. -/
theorem state_single_use :
    (∀ st s now (e : StateEntry) st1, takeOnce st s now = (some e, st1) →
      dictLookup st1 s = none) ∧
    (∀ (w : World) (token1 : IdToken) (s : String) (e : StateEntry) st1,
      s ≠ "" → takeOnce w.stateStore s w.now = (some e, st1) →
      ∀ (token2 : IdToken) (t2 : Nat),
        (handle_launch
            { (handle_launch w { id_token := some token1, state := some s }).2
              with now := t2 }
            { id_token := some token2, state := some s }).1 =
          .error (.ltiError "Invalid or expired state")) ∧
    (∀ (w : World) (token : IdToken) (s : String) (e : StateEntry),
      s ≠ "" → dictLookup w.stateStore s = some e →
      e.timestamp + 600 < w.now →
      (handle_launch w { id_token := some token, state := some s }).1 =
        .error (.ltiError "Invalid or expired state")) := by
  refine ⟨?_, ?_, ?_⟩
  · intro st s now e st1 h
    exact takeOnce_consumed h
  · intro w token1 s e st1 hs htake token2 t2
    have h1 : handle_launch w { id_token := some token1, state := some s } =
        launchRest { w with stateStore := st1 } s e token1 := by
      rw [handle_launch_eq w token1 s hs, htake]
    have habs : dictLookup
        (handle_launch w
          { id_token := some token1, state := some s }).2.stateStore s =
        none := by
      rw [h1]
      exact launchRest_preserves_state_absence _ _ _ _ _
        (takeOnce_consumed htake)
    rw [handle_launch_eq _ token2 s hs]
    have htk2 : takeOnce
        ({ (handle_launch w { id_token := some token1, state := some s }).2
           with now := t2 } : World).stateStore s
        ({ (handle_launch w { id_token := some token1, state := some s }).2
           with now := t2 } : World).now =
        (none,
         (handle_launch w
           { id_token := some token1, state := some s }).2.stateStore) := by
      unfold takeOnce
      dsimp only
      rw [habs]
    rw [htk2]
  · intro w token s e hs hl hold
    rw [handle_launch_eq w token s hs]
    have htk : takeOnce w.stateStore s w.now =
        (none, dictDelete w.stateStore s) := by
      unfold takeOnce
      rw [hl]
      dsimp only
      rw [if_neg (by omega)]
    rw [htk]

/-- C3 witness: a concrete world with one fresh state entry; the first
launch consumes it (that attempt itself then fails at the JWKS fetch, yet
the state is gone), so a second launch with the same state fails with the
invalid-state error. -/
theorem state_single_use_witness :
    (handle_launch
        { (handle_launch
            { stateStore := [("s1", ⟨"p1", "n1", none, 0⟩)] }
            { id_token := some {}, state := some "s1" }).2
          with now := 7 }
        { id_token := some {}, state := some "s1" }).1 =
      .error (.ltiError "Invalid or expired state") :=
  state_single_use.2.1
    { stateStore := [("s1", ⟨"p1", "n1", none, 0⟩)] } {} "s1"
    ⟨"p1", "n1", none, 0⟩ [] (by decide) (by decide) {} 7

/-- C4: nonce binding, over the spec-modelled state store. Given a launch
whose state token is consumed yielding entry `e`: (i) when the signature,
audience, issuer, expiry, version and deployment id all validate but the
token's nonce differs from the stored nonce, `handle_launch` fails with
the nonce error; (ii) when the token's nonce equals the stored nonce, the
launch never fails with the nonce error. -/
theorem nonce_binding (w : World) (token : IdToken) (s : String)
    (e : StateEntry) (st1 : List (String × StateEntry))
    (hs : s ≠ "") (htake : takeOnce w.stateStore s w.now = (some e, st1)) :
    (∀ (platform : PlatformConfig) (url : String) (jwks : Jwks) cache1 n,
      dictLookup w.configs e.platform_id = some platform →
      platform.auth_jwks_url = some url →
      _get_jwks w.jwksCache w.net w.now url = (.ok jwks, cache1, n) →
      _validate_jwt token jwks platform w.now = .ok token →
      token.nonce ≠ some e.nonce →
      (handle_launch w { id_token := some token, state := some s }).1 =
        .error (.ltiError "Invalid nonce")) ∧
    (token.nonce = some e.nonce →
      (handle_launch w { id_token := some token, state := some s }).1 ≠
        .error (.ltiError "Invalid nonce")) := by
  constructor
  · intro platform url jwks cache1 n hplat hurl hget hval hnonce
    rw [handle_launch_eq w token s hs, htake]
    dsimp only
    unfold launchRest
    dsimp only
    rw [hplat]
    dsimp only
    rw [hurl]
    dsimp only
    rw [hget]
    dsimp only
    rw [hval]
    dsimp only
    rw [if_pos hnonce]
  · intro hnonce
    rw [handle_launch_eq w token s hs, htake]
    dsimp only
    unfold launchRest
    dsimp only
    repeat' (split <;> (try dsimp only))
    all_goals try simp
    · rename_i heq
      rw [get_jwks_error_is_http heq]
      decide
    · rename_i e2 heq
      cases e2 <;> decide
    · rename_i m heq
      rcases validate_jwt_lti_error_msgs heq with h1 | h1 | h1 | h1 <;>
        (subst h1; decide)
    · rename_i decoded heq hne
      exact hne (by rw [validate_jwt_ok_eq heq, hnonce])

/-- C4 witness: a concrete world and token where everything but the nonce
validates; the launch fails with the nonce error. -/
theorem nonce_binding_witness :
    (handle_launch
        { configs :=
            [("p1", { issuer := some "i", client_id := some "c",
                      auth_jwks_url := some "u",
                      deployment_ids := some ["d"] })],
          stateStore := [("s1", ⟨"p1", "n1", none, 0⟩)],
          jwksCache := [("u", ⟨⟨[⟨some "k", 3⟩]⟩, 9⟩)] }
        { id_token := some
            { alg := "RS256", kid := some "k", sigKey := 3,
              iss := some "i", aud := some "c", nonce := some "other",
              version := some "1.3.0", deployment_id := some "d" },
          state := some "s1" }).1 =
      .error (.ltiError "Invalid nonce") :=
  (nonce_binding
    { configs :=
        [("p1", { issuer := some "i", client_id := some "c",
                  auth_jwks_url := some "u",
                  deployment_ids := some ["d"] })],
      stateStore := [("s1", ⟨"p1", "n1", none, 0⟩)],
      jwksCache := [("u", ⟨⟨[⟨some "k", 3⟩]⟩, 9⟩)] }
    { alg := "RS256", kid := some "k", sigKey := 3,
      iss := some "i", aud := some "c", nonce := some "other",
      version := some "1.3.0", deployment_id := some "d" }
    "s1" ⟨"p1", "n1", none, 0⟩ [] (by decide) (by decide)).1
    { issuer := some "i", client_id := some "c",
      auth_jwks_url := some "u", deployment_ids := some ["d"] }
    "u" ⟨[⟨some "k", 3⟩]⟩
    [("u", ⟨⟨[⟨some "k", 3⟩]⟩, 9⟩)] 0
    (by decide) (by decide) rfl rfl (by decide)

/-- C7: login initiation output. (i) For every login request with truthy
`iss` and `login_hint` whose issuer matches a registered platform (with
`client_id` and login URL present), `handle_login` succeeds and the
redirect descriptor carries exactly the parameters `scope=openid`,
`response_type=id_token`, the platform's `client_id`, the tool's
`redirect_uri`, the given `login_hint`, the freshly generated `state` and
`nonce`, `response_mode=form_post`, `prompt=none`, plus `lti_message_hint`
if and only if it was supplied; the state entry is stored. (ii) When no
registered platform has the issuer, the call fails with the
unknown-platform error and the world — in particular the state store —
is unchanged. -/
theorem handle_login_output (env : Env) (w : World) (r : LoginRequest) :
    (∀ (pid : String) (platform : PlatformConfig) (cid aurl : String),
      truthy r.iss = true → truthy r.login_hint = true →
      _get_platform_by_issuer w.configs (r.iss.getD "") =
        some (pid, platform) →
      platform.client_id = some cid →
      platform.auth_login_url = some aurl →
      handle_login env w r =
        (.ok ⟨aurl ++ "?" ++ String.intercalate "&"
            ((([("scope", "openid"),
                ("response_type", "id_token"),
                ("client_id", cid),
                ("redirect_uri", env.tool_url ++ env.launch_url),
                ("login_hint", r.login_hint.getD ""),
                ("state", mkTok w.ctr),
                ("response_mode", "form_post"),
                ("nonce", mkTok (w.ctr + 1)),
                ("prompt", "none")] ++
              match r.lti_message_hint with
              | some h => [("lti_message_hint", h)]
              | none => []).map (fun p => p.1 ++ "=" ++ p.2))),
          mkTok w.ctr,
          [("scope", "openid"),
           ("response_type", "id_token"),
           ("client_id", cid),
           ("redirect_uri", env.tool_url ++ env.launch_url),
           ("login_hint", r.login_hint.getD ""),
           ("state", mkTok w.ctr),
           ("response_mode", "form_post"),
           ("nonce", mkTok (w.ctr + 1)),
           ("prompt", "none")] ++
          (match r.lti_message_hint with
           | some h => [("lti_message_hint", h)]
           | none => [])⟩,
         { w with
           ctr := w.ctr + 2,
           stateStore := dictInsert w.stateStore (mkTok w.ctr)
             ⟨pid, mkTok (w.ctr + 1), r.target_link_uri, w.now⟩ })) ∧
    (truthy r.iss = true → truthy r.login_hint = true →
      _get_platform_by_issuer w.configs (r.iss.getD "") = none →
      handle_login env w r = (.badRequest "Unknown platform issuer", w)) := by
  constructor
  · intro pid platform cid aurl h1 h2 hlook hcid haurl
    unfold handle_login
    rw [if_neg (by simp [h1, h2])]
    rw [hlook]
    dsimp only
    rw [hcid]
    dsimp only
    rw [haurl]
    cases r.lti_message_hint <;> simp
  · intro h1 h2 hlook
    unfold handle_login
    rw [if_neg (by simp [h1, h2])]
    rw [hlook]

/-- C7 witness: a concrete registered platform and login request (with a
message hint); `handle_login` produces exactly the specified redirect
descriptor and stores the state entry. -/
theorem handle_login_output_witness :
    handle_login {}
      { configs := [("bb", { issuer := some "I", client_id := some "C",
                             auth_login_url := some "A" })] }
      { iss := some "I", login_hint := some "L",
        lti_message_hint := some "H" } =
      (.ok ⟨"A" ++ "?" ++ String.intercalate "&"
          ((([("scope", "openid"),
              ("response_type", "id_token"),
              ("client_id", "C"),
              ("redirect_uri", (({} : Env)).tool_url ++ (({} : Env)).launch_url),
              ("login_hint", (some "L").getD ""),
              ("state", mkTok 0),
              ("response_mode", "form_post"),
              ("nonce", mkTok (0 + 1)),
              ("prompt", "none")] ++
            match some "H" with
            | some h => [("lti_message_hint", h)]
            | none => []).map (fun p => p.1 ++ "=" ++ p.2))),
        mkTok 0,
        [("scope", "openid"),
         ("response_type", "id_token"),
         ("client_id", "C"),
         ("redirect_uri", (({} : Env)).tool_url ++ (({} : Env)).launch_url),
         ("login_hint", (some "L").getD ""),
         ("state", mkTok 0),
         ("response_mode", "form_post"),
         ("nonce", mkTok (0 + 1)),
         ("prompt", "none")] ++
        (match some "H" with
         | some h => [("lti_message_hint", h)]
         | none => [])⟩,
       { ({ configs := [("bb", { issuer := some "I", client_id := some "C",
                                 auth_login_url := some "A" })] } : World) with
         ctr := 0 + 2,
         stateStore := dictInsert [] (mkTok 0)
           ⟨"bb", mkTok (0 + 1), none, 0⟩ }) :=
  (handle_login_output {}
    { configs := [("bb", { issuer := some "I", client_id := some "C",
                           auth_login_url := some "A" })] }
    { iss := some "I", login_hint := some "L",
      lti_message_hint := some "H" }).1
    "bb" { issuer := some "I", client_id := some "C",
           auth_login_url := some "A" }
    "C" "A" (by decide) (by decide) (by decide) (by decide) (by decide)

/-- C1: end-to-end launch success. With the scenario platform registered
and a completed login initiation (state `mkTok c`, nonce `mkTok (c+1)`),
every launch within the state TTL presenting a token signed (under RS256)
by a key of the platform JWKS resolved by key id, with `aud=tool-123`,
`iss=https://lms.example.edu`, the stored nonce, `version=1.3.0`,
`deployment_id=dep-1`, an unexpired `exp`, and the Instructor role URI,
succeeds with `user_role="instructor"` and a fresh session token distinct
from every previously issued session token. -/
theorem end_to_end_launch_success
    (c t0 t1 : Nat) (ss : List String)
    (net : String → Except Unit Jwks)
    (jwks : Jwks) (jwk : Jwk) (token : IdToken)
    (hss : ∀ t ∈ ss, ∃ k, k < c ∧ t = mkTok k)
    (hT : t1 ≤ t0 + 600)
    (hnet : net "https://lms.example.edu/jwks" = .ok jwks)
    (hkey : findJwk jwks token.kid = some jwk)
    (hsig : token.sigKey = jwk.key)
    (halg : token.alg = "RS256")
    (hexp : isExpired token t1 = false)
    (haud : token.aud = some "tool-123")
    (hiss : token.iss = some "https://lms.example.edu")
    (hnonce : token.nonce = some (mkTok (c + 1)))
    (hver : token.version = some "1.3.0")
    (hdep : token.deployment_id = some "dep-1")
    (hroles : token.roles =
      ["http://purl.imsglobal.org/vocab/lis/v2/membership#Instructor"]) :
    ∃ lr w1,
      handle_login {}
        { configs := register_platform [] "bb" scenarioPlatform,
          net := net, now := t0, ctr := c, issuedSessions := ss }
        { iss := some "https://lms.example.edu", login_hint := some "u42" } =
        (.ok lr, w1) ∧
      lr.state = mkTok c ∧
      (lti_launch { w1 with now := t1 }
          { id_token := some token, state := some (mkTok c) }).1 =
        .ok (mkTok (c + 2))
          ⟨token.sub.getD "", token.name.getD "", "instructor",
           (token.context.getD {}).id.getD "",
           (token.context.getD {}).title.getD ""⟩ ∧
      mkTok (c + 2) ∉ ss := by
  have htake1 : takeOnce [(mkTok c, (⟨"bb", mkTok (c + 1), none, t0⟩ :
      StateEntry))] (mkTok c) t1 =
      (some ⟨"bb", mkTok (c + 1), none, t0⟩, []) := by
    unfold takeOnce
    rw [show dictLookup [(mkTok c, (⟨"bb", mkTok (c + 1), none, t0⟩ :
        StateEntry))] (mkTok c) = some ⟨"bb", mkTok (c + 1), none, t0⟩ by
      simp [dictLookup]]
    dsimp only
    rw [if_pos hT]
    simp [dictDelete]
  have hjwks1 : _get_jwks [] net t1 "https://lms.example.edu/jwks" =
      (.ok jwks, [("https://lms.example.edu/jwks", ⟨jwks, t1 + 3600⟩)], 1) := by
    unfold _get_jwks fetchAndStore
    simp [dictLookup, dictInsert, hnet]
  have hval : _validate_jwt token jwks scenarioPlatform t1 = .ok token := by
    unfold _validate_jwt
    rw [hkey]
    simp [scenarioPlatform, halg, hsig, hexp, haud, hiss, hver, hdep]
  have hrole : _determine_user_role token.roles = "instructor" := by
    rw [hroles]
    decide
  refine ⟨_, _, rfl, rfl, ?_, ?_⟩
  · unfold lti_launch
    rw [handle_launch_eq _ token (mkTok c) (mkTok_ne_empty c)]
    dsimp only [dictInsert]
    rw [htake1]
    dsimp only
    unfold launchRest
    dsimp only [register_platform, dictInsert]
    rw [show dictLookup [("bb", scenarioPlatform)] "bb" =
        some scenarioPlatform by simp [dictLookup]]
    dsimp only [scenarioPlatform]
    rw [hjwks1]
    dsimp only
    rw [show _validate_jwt token jwks
        { issuer := some "https://lms.example.edu",
          client_id := some "tool-123",
          auth_login_url := some "https://lms.example.edu/auth",
          auth_token_url := some "https://lms.example.edu/token",
          auth_jwks_url := some "https://lms.example.edu/jwks",
          deployment_ids := some ["dep-1"] } t1 = .ok token from hval]
    dsimp only
    rw [if_neg (by simp [hnonce])]
    dsimp only [_extract_lti_context, _create_session]
    rw [hrole]
  · intro hmem
    obtain ⟨k, hk, hEq⟩ := hss _ hmem
    have hck := mkTok_inj hEq
    omega

/-- C1 witness: the end-to-end scenario at concrete values — counter 0,
time 0, no previously issued sessions, a JWKS with one key `k1`, and a
token signed by that key carrying the scenario claims. -/
theorem end_to_end_launch_success_witness :
    ∃ lr w1,
      handle_login {}
        { configs := register_platform [] "bb" scenarioPlatform,
          net := fun u => if u = "https://lms.example.edu/jwks"
            then .ok ⟨[⟨some "k1", 7⟩]⟩ else .error (),
          now := 0, ctr := 0, issuedSessions := [] }
        { iss := some "https://lms.example.edu", login_hint := some "u42" } =
        (.ok lr, w1) ∧
      lr.state = mkTok 0 ∧
      (lti_launch { w1 with now := 0 }
          { id_token := some
              { alg := "RS256", kid := some "k1", sigKey := 7,
                iss := some "https://lms.example.edu",
                aud := some "tool-123", nonce := some (mkTok 1),
                version := some "1.3.0", deployment_id := some "dep-1",
                roles :=
                  ["http://purl.imsglobal.org/vocab/lis/v2/membership#Instructor"] },
            state := some (mkTok 0) }).1 =
        .ok (mkTok 2) ⟨"", "", "instructor", "", ""⟩ ∧
      mkTok 2 ∉ ([] : List String) :=
  end_to_end_launch_success 0 0 0 []
    (fun u => if u = "https://lms.example.edu/jwks"
      then .ok ⟨[⟨some "k1", 7⟩]⟩ else .error ())
    ⟨[⟨some "k1", 7⟩]⟩ ⟨some "k1", 7⟩
    { alg := "RS256", kid := some "k1", sigKey := 7,
      iss := some "https://lms.example.edu", aud := some "tool-123",
      nonce := some (mkTok 1), version := some "1.3.0",
      deployment_id := some "dep-1",
      roles :=
        ["http://purl.imsglobal.org/vocab/lis/v2/membership#Instructor"] }
    (by simp) (by omega) rfl rfl rfl rfl rfl rfl rfl rfl rfl rfl rfl

end LTI
